import Mathlib

/-!
Verification of the ensicoin-serializer wire-format codec.

The deserializer (`src/ensicoin-serializer/src/deserializer.rs`) is embedded
shallowly: the Rust `Deserializer` holds a `VecDeque<u8>` buffer mutated in
place, so every operation is modelled as a function
`List (Fin 256) → Except Error α × List (Fin 256)`
returning both the outcome and the buffer as it stands after the call
(on failure the buffer may be partially consumed, exactly as in the source).
Bytes are `Fin 256`; multi-byte big-endian values are plain `Nat` (in the
source the shifted bytes occupy disjoint bit ranges, so `|` coincides
with `+` and no overflow can occur).
-/

/-- Embeds `VarUint` from `types.rs`: a single `value: u64` field. -/
structure VarUint where
  value : Nat
deriving DecidableEq, Repr

/-- Embeds the `Error` enum of `deserializer.rs`. `BufferTooShort` carries the
type name, the expected size and the bytes actually read; `InvalidString`
carries (as our model of `FromUtf8Error`) the offending bytes. -/
inductive Error where
  | Message (s : String)
  | BufferTooShort (t : String) (exp : Nat) (bs : Nat)
  | InvalidString (bytes : List (Fin 256))
deriving DecidableEq, Repr

/-- Embeds `impl Display for Error`. The `InvalidString` arm formats the
payload of `FromUtf8Error`, whose exact text comes from the Rust standard
library; no claim depends on it, so it is rendered as a fixed marker. -/
def Error.fmt : Error → String
  | .Message s => "Error in deserializing : " ++ s
  | .BufferTooShort t exp bs =>
      "Not enough bytes in buffer reading " ++ t ++ ", expected " ++
        toString exp ++ " got " ++ toString bs
  | .InvalidString _ => "Invalid String: invalid utf-8 sequence"

/-- Embeds `Deserializer::extract_bytes`: checks the length first (buffer
untouched on failure), then pops `length` bytes off the front. -/
def extract_bytes (b : List (Fin 256)) (length : Nat) :
    Except Error (List (Fin 256)) × List (Fin 256) :=
  if length > b.length then (.error (.BufferTooShort "bytes" length b.length), b)
  else (.ok (b.take length), b.drop length)

/-- Embeds `Deserializer::deserialize_u8`. -/
def deserialize_u8 : List (Fin 256) → Except Error Nat × List (Fin 256)
  | b0 :: rest => (.ok b0.val, rest)
  | b => (.error (.BufferTooShort "u8" 1 b.length), b)

/-- Embeds `Deserializer::deserialize_u16`: two bytes, big-endian. -/
def deserialize_u16 : List (Fin 256) → Except Error Nat × List (Fin 256)
  | b0 :: b1 :: rest => (.ok (b0.val * 2 ^ 8 + b1.val), rest)
  | b => (.error (.BufferTooShort "u16" 2 b.length), b)

/-- Embeds `Deserializer::deserialize_u32`: four bytes, big-endian. -/
def deserialize_u32 : List (Fin 256) → Except Error Nat × List (Fin 256)
  | b0 :: b1 :: b2 :: b3 :: rest =>
      (.ok (b0.val * 2 ^ 24 + b1.val * 2 ^ 16 + b2.val * 2 ^ 8 + b3.val), rest)
  | b => (.error (.BufferTooShort "u32" 4 b.length), b)

/-- Embeds `Deserializer::deserialize_u64`: eight bytes, big-endian. -/
def deserialize_u64 : List (Fin 256) → Except Error Nat × List (Fin 256)
  | b0 :: b1 :: b2 :: b3 :: b4 :: b5 :: b6 :: b7 :: rest =>
      (.ok (b0.val * 2 ^ 56 + b1.val * 2 ^ 48 + b2.val * 2 ^ 40 + b3.val * 2 ^ 32 +
            b4.val * 2 ^ 24 + b5.val * 2 ^ 16 + b6.val * 2 ^ 8 + b7.val), rest)
  | b => (.error (.BufferTooShort "u64" 8 b.length), b)

/-- Embeds `Deserializer::deserialize_varuint`: reads the first byte; on
`0xFD`/`0xFE`/`0xFF` reads a 2-, 4- or 8-byte big-endian integer, otherwise the
byte itself is the value. Every inner `BufferTooShort` is rewritten to name
`VarUint`, keeping the expected/read counts. -/
def deserialize_varuint (b : List (Fin 256)) :
    Except Error VarUint × List (Fin 256) :=
  match deserialize_u8 b with
  | (.error (.BufferTooShort _ exp len), b1) =>
      (.error (.BufferTooShort "VarUint" exp len), b1)
  | (.error e, b1) => (.error e, b1)
  | (.ok first_byte, b1) =>
    match first_byte with
    | 0xFD =>
      match deserialize_u16 b1 with
      | (.ok n, b2) => (.ok ⟨n⟩, b2)
      | (.error (.BufferTooShort _ exp len), b2) =>
          (.error (.BufferTooShort "VarUint" exp len), b2)
      | (.error e, b2) => (.error e, b2)
    | 0xFE =>
      match deserialize_u32 b1 with
      | (.ok n, b2) => (.ok ⟨n⟩, b2)
      | (.error (.BufferTooShort _ exp len), b2) =>
          (.error (.BufferTooShort "VarUint" exp len), b2)
      | (.error e, b2) => (.error e, b2)
    | 0xFF =>
      match deserialize_u64 b1 with
      | (.ok n, b2) => (.ok ⟨n⟩, b2)
      | (.error (.BufferTooShort _ exp len), b2) =>
          (.error (.BufferTooShort "VarUint" exp len), b2)
      | (.error e, b2) => (.error e, b2)
    | _ => (.ok ⟨first_byte⟩, b1)

/-- True of a UTF-8 continuation byte (`0x80`–`0xBF`). -/
def utf8ContByte (b : Fin 256) : Bool := 0x80 ≤ b.val && b.val ≤ 0xBF

/-- Models the UTF-8 validity check performed by `String::from_utf8` in the
Rust standard library, per the UTF-8 standard: 1-byte `00`–`7F`; 2-byte
`C2`–`DF` + continuation; 3-byte `E0 A0`–`BF`, `E1`–`EC`/`EE`/`EF` + two
continuations, `ED 80`–`9F` (no surrogates); 4-byte `F0 90`–`BF`,
`F1`–`F3`, `F4 80`–`8F` (max `U+10FFFF`). -/
def utf8Valid : List (Fin 256) → Bool
  | [] => true
  | c :: rest =>
    if c.val ≤ 0x7F then utf8Valid rest
    else if 0xC2 ≤ c.val && c.val ≤ 0xDF then
      match rest with
      | c1 :: rest1 => utf8ContByte c1 && utf8Valid rest1
      | [] => false
    else if c.val = 0xE0 then
      match rest with
      | c1 :: c2 :: rest2 =>
          (0xA0 ≤ c1.val && c1.val ≤ 0xBF) && utf8ContByte c2 && utf8Valid rest2
      | _ => false
    else if (0xE1 ≤ c.val && c.val ≤ 0xEC) || c.val = 0xEE || c.val = 0xEF then
      match rest with
      | c1 :: c2 :: rest2 => utf8ContByte c1 && utf8ContByte c2 && utf8Valid rest2
      | _ => false
    else if c.val = 0xED then
      match rest with
      | c1 :: c2 :: rest2 =>
          (0x80 ≤ c1.val && c1.val ≤ 0x9F) && utf8ContByte c2 && utf8Valid rest2
      | _ => false
    else if c.val = 0xF0 then
      match rest with
      | c1 :: c2 :: c3 :: rest3 =>
          (0x90 ≤ c1.val && c1.val ≤ 0xBF) && utf8ContByte c2 && utf8ContByte c3 &&
            utf8Valid rest3
      | _ => false
    else if 0xF1 ≤ c.val && c.val ≤ 0xF3 then
      match rest with
      | c1 :: c2 :: c3 :: rest3 =>
          utf8ContByte c1 && utf8ContByte c2 && utf8ContByte c3 && utf8Valid rest3
      | _ => false
    else if c.val = 0xF4 then
      match rest with
      | c1 :: c2 :: c3 :: rest3 =>
          (0x80 ≤ c1.val && c1.val ≤ 0x8F) && utf8ContByte c2 && utf8ContByte c3 &&
            utf8Valid rest3
      | _ => false
    else false

/-- A Rust `String` is exactly its UTF-8 byte content; we represent it by
that byte list (valid UTF-8 is an invariant of values, stated as a
hypothesis where it matters). -/
structure RustString where
  bytes : List (Fin 256)
deriving DecidableEq, Repr

/-- Embeds `Deserializer::deserialize_string`: VarUint length (errors wrapped
in a `Message`), then a length check (buffer untouched by the check), then
`length` bytes are popped and validated as UTF-8. -/
def deserialize_string (b : List (Fin 256)) :
    Except Error RustString × List (Fin 256) :=
  match deserialize_varuint b with
  | (.error e, b1) =>
      (.error (.Message ("Error in reading string length: " ++ e.fmt)), b1)
  | (.ok n, b1) =>
    if b1.length < n.value then
      (.error (.BufferTooShort "String" n.value b1.length), b1)
    else
      let bytes := b1.take n.value
      if utf8Valid bytes then (.ok ⟨bytes⟩, b1.drop n.value)
      else (.error (.InvalidString bytes), b1.drop n.value)

/-- Embeds the element loop of `Deserializer::deserialize_vec`: decodes `n`
values of the element type in order; the first failing element aborts the
loop with its error wrapped in a `Message`. -/
def deserialize_vec_items {α : Type} (dec : List (Fin 256) → Except Error α × List (Fin 256)) :
    Nat → List (Fin 256) → Except Error (List α) × List (Fin 256)
  | 0, b => (.ok [], b)
  | n + 1, b =>
    match dec b with
    | (.error e, b1) =>
        (.error (.Message ("Error in reading vec item: " ++ e.fmt)), b1)
    | (.ok x, b1) =>
      match deserialize_vec_items dec n b1 with
      | (.error e, b2) => (.error e, b2)
      | (.ok xs, b2) => (.ok (x :: xs), b2)

/-- Embeds `Deserializer::deserialize_vec`, generic over the `Deserialize`
implementation `dec` of the element type: reads a VarUint length (errors wrapped in
a `Message`), then that many elements. -/
def deserialize_vec {α : Type} (dec : List (Fin 256) → Except Error α × List (Fin 256))
    (b : List (Fin 256)) : Except Error (List α) × List (Fin 256) :=
  match deserialize_varuint b with
  | (.error e, b1) =>
      (.error (.Message ("Error in reading vec length: " ++ e.fmt)), b1)
  | (.ok n, b1) => deserialize_vec_items dec n.value b1

/-- Embeds `impl Deserialize for Sha256Result`: `extract_bytes(32)?`, the
error propagated unchanged; the 32-byte `GenericArray` is modelled as the
extracted byte list. -/
def deserialize_hash (b : List (Fin 256)) :
    Except Error (List (Fin 256)) × List (Fin 256) :=
  match extract_bytes b 32 with
  | (.error e, b1) => (.error e, b1)
  | (.ok v, b1) => (.ok v, b1)

/-- Models the `std::net::SocketAddr` value produced by the decoder: it is
always the V6 form, a 128-bit address plus a 16-bit port. -/
structure SockAddr where
  ip : Nat
  port : Nat
deriving DecidableEq, Repr

/-- Embeds `impl Deserialize for SocketAddr`: u64 high word, u64 low word,
`(high << 64) + low` as the IPv6 address, then a u16 port; the failure of
each field is wrapped in a `Message` naming the field. -/
def deserialize_sockaddr (b : List (Fin 256)) :
    Except Error SockAddr × List (Fin 256) :=
  match deserialize_u64 b with
  | (.error e, b1) =>
      (.error (.Message ("In reading SocketAddr ip high: " ++ e.fmt)), b1)
  | (.ok high, b1) =>
    match deserialize_u64 b1 with
    | (.error e, b2) =>
        (.error (.Message ("In reading SocketAddr ip low: " ++ e.fmt)), b2)
    | (.ok low, b2) =>
      match deserialize_u16 b2 with
      | (.error e, b3) =>
          (.error (.Message ("In reading SocketAddr port: " ++ e.fmt)), b3)
      | (.ok port, b3) => (.ok ⟨high * 2 ^ 64 + low, port⟩, b3)

deriving instance DecidableEq for Except

/-- Modelled from the spec: `serializer.rs` is declared in `lib.rs` but its
source is not available; per the spec, fixed-width integers are written as
big-endian bytes. `beBytes w n` is the `w`-byte big-endian encoding of `n`
(most significant byte first). -/
def beBytes : Nat → Nat → List (Fin 256)
  | 0, _ => []
  | w + 1, n => beBytes w (n / 256) ++ [⟨n % 256, Nat.mod_lt n (by norm_num)⟩]

/-- The big-endian value of a byte list (used to relate the fixed-width
decoders to `beBytes`). -/
def beVal (l : List (Fin 256)) : Nat :=
  l.foldl (fun acc b => acc * 256 + b.val) 0

/-- Modelled from the spec: `Serialize` for `u8` writes 1 big-endian byte. -/
def serialize_u8 (n : Nat) : List (Fin 256) := beBytes 1 n

/-- Modelled from the spec: `Serialize` for `u16` writes 2 big-endian bytes. -/
def serialize_u16 (n : Nat) : List (Fin 256) := beBytes 2 n

/-- Modelled from the spec: `Serialize` for `u32` writes 4 big-endian bytes. -/
def serialize_u32 (n : Nat) : List (Fin 256) := beBytes 4 n

/-- Modelled from the spec: `Serialize` for `u64` writes 8 big-endian bytes. -/
def serialize_u64 (n : Nat) : List (Fin 256) := beBytes 8 n

/-- Modelled from the spec: `Serialize` for `VarUint` follows the table of
section 4.1 — values 0–252 as one byte, 253–65535 as `0xFD` plus 2 bytes,
65536–4294967295 as `0xFE` plus 4 bytes, larger values as `0xFF` plus
8 bytes, all big-endian. -/
def serialize_varuint (v : VarUint) : List (Fin 256) :=
  if v.value < 0xFD then beBytes 1 v.value
  else if v.value < 0x10000 then ⟨0xFD, by norm_num⟩ :: beBytes 2 v.value
  else if v.value < 0x100000000 then ⟨0xFE, by norm_num⟩ :: beBytes 4 v.value
  else ⟨0xFF, by norm_num⟩ :: beBytes 8 v.value

/-- Modelled from the spec: `Serialize` for `String` writes a VarUint byte
count followed by the UTF-8 bytes. -/
def serialize_string (s : RustString) : List (Fin 256) :=
  serialize_varuint ⟨s.bytes.length⟩ ++ s.bytes

/-- Modelled from the spec: the element part of `Serialize` for `Vec<T>` —
the encodings of the elements, concatenated in order. -/
def serialize_items {α : Type} (enc : α → List (Fin 256)) : List α → List (Fin 256)
  | [] => []
  | x :: xs => enc x ++ serialize_items enc xs

/-- Modelled from the spec: `Serialize` for `Vec<T>` writes a VarUint element
count followed by the encoding of each element in order. -/
def serialize_vec {α : Type} (enc : α → List (Fin 256)) (xs : List α) : List (Fin 256) :=
  serialize_varuint ⟨xs.length⟩ ++ serialize_items enc xs

/-- Modelled from the spec: `Serialize` for `Sha256Result` writes the raw 32
bytes. -/
def serialize_hash (h : List (Fin 256)) : List (Fin 256) := h

/-- Modelled from the spec: `Serialize` for `SocketAddr` writes the high and
low 64-bit words of the 128-bit IPv6 address, then the 16-bit port, all
big-endian. -/
def serialize_sockaddr (a : SockAddr) : List (Fin 256) :=
  beBytes 8 (a.ip / 2 ^ 64) ++ beBytes 8 (a.ip % 2 ^ 64) ++ beBytes 2 a.port

theorem beBytes_length (w : Nat) : ∀ n, (beBytes w n).length = w := by
  induction w with
  | zero => intro n; rfl
  | succ w ih => intro n; simp [beBytes, ih]

theorem beVal_append_one (l : List (Fin 256)) (b : Fin 256) :
    beVal (l ++ [b]) = beVal l * 256 + b.val := by
  simp [beVal, List.foldl_append]

theorem beVal_beBytes : ∀ (w n : Nat), n < 256 ^ w → beVal (beBytes w n) = n := by
  intro w
  induction w with
  | zero =>
    intro n h
    norm_num at h
    subst h
    rfl
  | succ w ih =>
    intro n h
    have h1 : n / 256 < 256 ^ w := by
      rw [pow_succ] at h
      exact (Nat.div_lt_iff_lt_mul (by norm_num)).mpr h
    simp only [beBytes]
    rw [beVal_append_one, ih _ h1]
    simp only [Fin.val_mk]
    omega

theorem deserialize_u8_append (l rest : List (Fin 256)) (h : l.length = 1) :
    deserialize_u8 (l ++ rest) = (.ok (beVal l), rest) := by
  rcases l with _ | ⟨b0, t⟩
  · simp at h
  · rcases t with _ | ⟨b1, t⟩
    · simp [deserialize_u8, beVal]
    · simp at h

theorem deserialize_u16_append (l rest : List (Fin 256)) (h : l.length = 2) :
    deserialize_u16 (l ++ rest) = (.ok (beVal l), rest) := by
  rcases l with _ | ⟨b0, _ | ⟨b1, _ | ⟨b2, t⟩⟩⟩ <;> simp at h
  simp [deserialize_u16, beVal]

theorem deserialize_u32_append (l rest : List (Fin 256)) (h : l.length = 4) :
    deserialize_u32 (l ++ rest) = (.ok (beVal l), rest) := by
  rcases l with _ | ⟨b0, _ | ⟨b1, _ | ⟨b2, _ | ⟨b3, _ | ⟨b4, t⟩⟩⟩⟩⟩ <;> simp at h
  simp [deserialize_u32, beVal]
  omega

theorem deserialize_u64_append (l rest : List (Fin 256)) (h : l.length = 8) :
    deserialize_u64 (l ++ rest) = (.ok (beVal l), rest) := by
  rcases l with _ | ⟨b0, _ | ⟨b1, _ | ⟨b2, _ | ⟨b3, _ | ⟨b4, _ | ⟨b5, _ | ⟨b6, _ | ⟨b7, _ | ⟨b8, t⟩⟩⟩⟩⟩⟩⟩⟩⟩ <;> simp at h
  simp [deserialize_u64, beVal]
  omega

theorem roundtrip_u8 (n : Nat) (h : n < 2 ^ 8) (rest : List (Fin 256)) :
    deserialize_u8 (serialize_u8 n ++ rest) = (.ok n, rest) := by
  rw [serialize_u8, deserialize_u8_append _ _ (beBytes_length 1 n),
    beVal_beBytes 1 n (by norm_num at h ⊢; omega)]

theorem roundtrip_u16 (n : Nat) (h : n < 2 ^ 16) (rest : List (Fin 256)) :
    deserialize_u16 (serialize_u16 n ++ rest) = (.ok n, rest) := by
  rw [serialize_u16, deserialize_u16_append _ _ (beBytes_length 2 n),
    beVal_beBytes 2 n (by norm_num at h ⊢; omega)]

theorem roundtrip_u32 (n : Nat) (h : n < 2 ^ 32) (rest : List (Fin 256)) :
    deserialize_u32 (serialize_u32 n ++ rest) = (.ok n, rest) := by
  rw [serialize_u32, deserialize_u32_append _ _ (beBytes_length 4 n),
    beVal_beBytes 4 n (by norm_num at h ⊢; omega)]

theorem roundtrip_u64 (n : Nat) (h : n < 2 ^ 64) (rest : List (Fin 256)) :
    deserialize_u64 (serialize_u64 n ++ rest) = (.ok n, rest) := by
  rw [serialize_u64, deserialize_u64_append _ _ (beBytes_length 8 n),
    beVal_beBytes 8 n (by norm_num at h ⊢; omega)]

theorem deserialize_varuint_small (b0 : Fin 256) (rest : List (Fin 256))
    (h1 : b0.val ≠ 0xFD) (h2 : b0.val ≠ 0xFE) (h3 : b0.val ≠ 0xFF) :
    deserialize_varuint (b0 :: rest) = (.ok ⟨b0.val⟩, rest) := by
  unfold deserialize_varuint
  simp only [deserialize_u8]

theorem deserialize_varuint_fd_ok (b0 : Fin 256) (hb : b0.val = 0xFD)
    (rest b2 : List (Fin 256)) (n : Nat)
    (h : deserialize_u16 rest = (.ok n, b2)) :
    deserialize_varuint (b0 :: rest) = (.ok ⟨n⟩, b2) := by
  unfold deserialize_varuint
  simp only [deserialize_u8, hb, h]

theorem deserialize_varuint_fe_ok (b0 : Fin 256) (hb : b0.val = 0xFE)
    (rest b2 : List (Fin 256)) (n : Nat)
    (h : deserialize_u32 rest = (.ok n, b2)) :
    deserialize_varuint (b0 :: rest) = (.ok ⟨n⟩, b2) := by
  unfold deserialize_varuint
  simp only [deserialize_u8, hb, h]

theorem deserialize_varuint_ff_ok (b0 : Fin 256) (hb : b0.val = 0xFF)
    (rest b2 : List (Fin 256)) (n : Nat)
    (h : deserialize_u64 rest = (.ok n, b2)) :
    deserialize_varuint (b0 :: rest) = (.ok ⟨n⟩, b2) := by
  unfold deserialize_varuint
  simp only [deserialize_u8, hb, h]

theorem deserialize_varuint_fd_err (b0 : Fin 256) (hb : b0.val = 0xFD)
    (rest b2 : List (Fin 256)) (t : String) (exp len : Nat)
    (h : deserialize_u16 rest = (.error (.BufferTooShort t exp len), b2)) :
    deserialize_varuint (b0 :: rest) =
      (.error (.BufferTooShort "VarUint" exp len), b2) := by
  unfold deserialize_varuint
  simp only [deserialize_u8, hb, h]

theorem deserialize_varuint_fe_err (b0 : Fin 256) (hb : b0.val = 0xFE)
    (rest b2 : List (Fin 256)) (t : String) (exp len : Nat)
    (h : deserialize_u32 rest = (.error (.BufferTooShort t exp len), b2)) :
    deserialize_varuint (b0 :: rest) =
      (.error (.BufferTooShort "VarUint" exp len), b2) := by
  unfold deserialize_varuint
  simp only [deserialize_u8, hb, h]

theorem deserialize_varuint_ff_err (b0 : Fin 256) (hb : b0.val = 0xFF)
    (rest b2 : List (Fin 256)) (t : String) (exp len : Nat)
    (h : deserialize_u64 rest = (.error (.BufferTooShort t exp len), b2)) :
    deserialize_varuint (b0 :: rest) =
      (.error (.BufferTooShort "VarUint" exp len), b2) := by
  unfold deserialize_varuint
  simp only [deserialize_u8, hb, h]

theorem deserialize_u8_short (b : List (Fin 256)) (h : b.length < 1) :
    deserialize_u8 b = (.error (.BufferTooShort "u8" 1 b.length), b) := by
  rcases b with _ | ⟨b0, t⟩
  · rfl
  · simp at h

theorem deserialize_u16_short (b : List (Fin 256)) (h : b.length < 2) :
    deserialize_u16 b = (.error (.BufferTooShort "u16" 2 b.length), b) := by
  rcases b with _ | ⟨b0, _ | ⟨b1, t⟩⟩
  · rfl
  · rfl
  · simp at h
    omega

theorem deserialize_u32_short (b : List (Fin 256)) (h : b.length < 4) :
    deserialize_u32 b = (.error (.BufferTooShort "u32" 4 b.length), b) := by
  rcases b with _ | ⟨b0, _ | ⟨b1, _ | ⟨b2, _ | ⟨b3, t⟩⟩⟩⟩
  · rfl
  · rfl
  · rfl
  · rfl
  · simp at h
    omega

theorem deserialize_u64_short (b : List (Fin 256)) (h : b.length < 8) :
    deserialize_u64 b = (.error (.BufferTooShort "u64" 8 b.length), b) := by
  rcases b with _ | ⟨b0, _ | ⟨b1, _ | ⟨b2, _ | ⟨b3, _ | ⟨b4, _ | ⟨b5, _ | ⟨b6, _ | ⟨b7, t⟩⟩⟩⟩⟩⟩⟩⟩
  · rfl
  · rfl
  · rfl
  · rfl
  · rfl
  · rfl
  · rfl
  · rfl
  · simp at h
    omega

theorem roundtrip_varuint (v : VarUint) (h : v.value < 2 ^ 64) (rest : List (Fin 256)) :
    deserialize_varuint (serialize_varuint v ++ rest) = (.ok v, rest) := by
  obtain ⟨n⟩ := v
  simp only at h
  by_cases h1 : n < 0xFD
  · have hmod : n % 256 = n := Nat.mod_eq_of_lt (by omega)
    simp only [serialize_varuint, if_pos h1, beBytes, List.nil_append, List.cons_append]
    rw [deserialize_varuint_small _ _ (by simp [hmod]; omega) (by simp [hmod]; omega)
      (by simp [hmod]; omega)]
    simp [hmod]
  · by_cases h2 : n < 0x10000
    · simp only [serialize_varuint, if_neg h1, if_pos h2, List.cons_append]
      rw [deserialize_varuint_fd_ok _ rfl _ _ _
        (deserialize_u16_append _ rest (beBytes_length 2 n)),
        beVal_beBytes 2 n (by norm_num; omega)]
    · by_cases h3 : n < 0x100000000
      · simp only [serialize_varuint, if_neg h1, if_neg h2, if_pos h3, List.cons_append]
        rw [deserialize_varuint_fe_ok _ rfl _ _ _
          (deserialize_u32_append _ rest (beBytes_length 4 n)),
          beVal_beBytes 4 n (by norm_num; omega)]
      · simp only [serialize_varuint, if_neg h1, if_neg h2, if_neg h3, List.cons_append]
        rw [deserialize_varuint_ff_ok _ rfl _ _ _
          (deserialize_u64_append _ rest (beBytes_length 8 n)),
          beVal_beBytes 8 n (by norm_num; omega)]

theorem roundtrip_string (s : RustString) (hval : utf8Valid s.bytes)
    (hlen : s.bytes.length < 2 ^ 64) (rest : List (Fin 256)) :
    deserialize_string (serialize_string s ++ rest) = (.ok s, rest) := by
  obtain ⟨bs⟩ := s
  simp only at hval hlen
  unfold deserialize_string serialize_string
  rw [List.append_assoc, roundtrip_varuint ⟨bs.length⟩ hlen (bs ++ rest)]
  simp only []
  rw [if_neg (by simp), List.take_left, List.drop_left, if_pos hval]

theorem roundtrip_vec_items {α : Type} (dec : List (Fin 256) → Except Error α × List (Fin 256))
    (enc : α → List (Fin 256)) (xs : List α) (rest : List (Fin 256))
    (hrt : ∀ x ∈ xs, ∀ r, dec (enc x ++ r) = (.ok x, r)) :
    deserialize_vec_items dec xs.length (serialize_items enc xs ++ rest) = (.ok xs, rest) := by
  induction xs with
  | nil => rfl
  | cons x xs ih =>
    simp only [serialize_items, List.length_cons, List.append_assoc, deserialize_vec_items]
    rw [hrt x (by simp) (serialize_items enc xs ++ rest)]
    simp only []
    rw [ih (fun y hy r => hrt y (by simp [hy]) r)]

theorem roundtrip_vec {α : Type} (enc : α → List (Fin 256))
    (dec : List (Fin 256) → Except Error α × List (Fin 256)) (xs : List α)
    (hlen : xs.length < 2 ^ 64)
    (hrt : ∀ x ∈ xs, ∀ r, dec (enc x ++ r) = (.ok x, r)) (rest : List (Fin 256)) :
    deserialize_vec dec (serialize_vec enc xs ++ rest) = (.ok xs, rest) := by
  unfold deserialize_vec serialize_vec
  rw [List.append_assoc, roundtrip_varuint ⟨xs.length⟩ hlen]
  exact roundtrip_vec_items dec enc xs rest hrt

theorem roundtrip_hash (h : List (Fin 256)) (hl : h.length = 32) (rest : List (Fin 256)) :
    deserialize_hash (serialize_hash h ++ rest) = (.ok h, rest) := by
  unfold deserialize_hash serialize_hash extract_bytes
  rw [if_neg (by simp; omega)]
  rw [← hl, List.take_left, List.drop_left]

theorem roundtrip_sockaddr (a : SockAddr) (hip : a.ip < 2 ^ 128) (hport : a.port < 2 ^ 16)
    (rest : List (Fin 256)) :
    deserialize_sockaddr (serialize_sockaddr a ++ rest) = (.ok a, rest) := by
  obtain ⟨ip, port⟩ := a
  simp only at hip hport
  have hhigh : ip / 2 ^ 64 < 256 ^ 8 := by
    rw [show (256 : Nat) ^ 8 = 2 ^ 64 by norm_num]
    omega
  have hlow : ip % 2 ^ 64 < 256 ^ 8 := by
    rw [show (256 : Nat) ^ 8 = 2 ^ 64 by norm_num]
    omega
  unfold deserialize_sockaddr serialize_sockaddr
  simp only [List.append_assoc]
  rw [deserialize_u64_append _ _ (beBytes_length 8 _), beVal_beBytes 8 _ hhigh]
  simp only []
  rw [deserialize_u64_append _ _ (beBytes_length 8 _), beVal_beBytes 8 _ hlow]
  simp only []
  rw [deserialize_u16_append _ _ (beBytes_length 2 _), beVal_beBytes 2 _ (by norm_num; omega)]
  have hdm : ip / 2 ^ 64 * 2 ^ 64 + ip % 2 ^ 64 = ip := by omega
  rw [hdm]

theorem deserialize_string_len_err (b b1 : List (Fin 256)) (e : Error)
    (h : deserialize_varuint b = (.error e, b1)) :
    deserialize_string b =
      (.error (.Message ("Error in reading string length: " ++ e.fmt)), b1) := by
  unfold deserialize_string
  simp only [h]

theorem deserialize_string_short (b b1 : List (Fin 256)) (n : VarUint)
    (h : deserialize_varuint b = (.ok n, b1)) (h2 : b1.length < n.value) :
    deserialize_string b = (.error (.BufferTooShort "String" n.value b1.length), b1) := by
  unfold deserialize_string
  simp only [h, if_pos h2]

theorem deserialize_string_invalid (b b1 : List (Fin 256)) (n : VarUint)
    (h : deserialize_varuint b = (.ok n, b1)) (h2 : ¬b1.length < n.value)
    (h3 : ¬utf8Valid (b1.take n.value)) :
    deserialize_string b = (.error (.InvalidString (b1.take n.value)), b1.drop n.value) := by
  unfold deserialize_string
  simp only [h, if_neg h2, if_neg h3]

theorem deserialize_string_ok (b b1 : List (Fin 256)) (n : VarUint)
    (h : deserialize_varuint b = (.ok n, b1)) (h2 : ¬b1.length < n.value)
    (h3 : utf8Valid (b1.take n.value)) :
    deserialize_string b = (.ok ⟨b1.take n.value⟩, b1.drop n.value) := by
  unfold deserialize_string
  simp only [h, if_neg h2, if_pos h3]

theorem deserialize_vec_len_err {α : Type}
    (dec : List (Fin 256) → Except Error α × List (Fin 256)) (b b1 : List (Fin 256)) (e : Error)
    (h : deserialize_varuint b = (.error e, b1)) :
    deserialize_vec dec b =
      (.error (.Message ("Error in reading vec length: " ++ e.fmt)), b1) := by
  unfold deserialize_vec
  simp only [h]

theorem deserialize_vec_of_varuint {α : Type}
    (dec : List (Fin 256) → Except Error α × List (Fin 256)) (b b1 : List (Fin 256)) (n : VarUint)
    (h : deserialize_varuint b = (.ok n, b1)) :
    deserialize_vec dec b = deserialize_vec_items dec n.value b1 := by
  unfold deserialize_vec
  simp only [h]

theorem deserialize_vec_items_err {α : Type}
    (dec : List (Fin 256) → Except Error α × List (Fin 256)) (b b1 : List (Fin 256))
    (e : Error) (n : Nat) (h : dec b = (.error e, b1)) :
    deserialize_vec_items dec (n + 1) b =
      (.error (.Message ("Error in reading vec item: " ++ e.fmt)), b1) := by
  simp only [deserialize_vec_items, h]

theorem deserialize_vec_items_length {α : Type}
    (dec : List (Fin 256) → Except Error α × List (Fin 256)) :
    ∀ (n : Nat) (b b2 : List (Fin 256)) (xs : List α),
      deserialize_vec_items dec n b = (.ok xs, b2) → xs.length = n := by
  intro n
  induction n with
  | zero =>
    intro b b2 xs h
    simp only [deserialize_vec_items] at h
    cases h
    rfl
  | succ n ih =>
    intro b b2 xs h
    simp only [deserialize_vec_items] at h
    rcases hd : dec b with ⟨res, b1⟩
    rw [hd] at h
    cases res with
    | error e => simp at h
    | ok x =>
      simp only [] at h
      rcases hi : deserialize_vec_items dec n b1 with ⟨ires, bi⟩
      rw [hi] at h
      cases ires with
      | error e => simp at h
      | ok ys =>
        simp only [] at h
        cases h
        simp [ih b1 b2 ys hi]

theorem deserialize_sockaddr_high_err (b b1 : List (Fin 256)) (e : Error)
    (h : deserialize_u64 b = (.error e, b1)) :
    deserialize_sockaddr b =
      (.error (.Message ("In reading SocketAddr ip high: " ++ e.fmt)), b1) := by
  unfold deserialize_sockaddr
  simp only [h]

theorem deserialize_sockaddr_low_err (b b1 b2 : List (Fin 256)) (high : Nat) (e : Error)
    (h1 : deserialize_u64 b = (.ok high, b1)) (h2 : deserialize_u64 b1 = (.error e, b2)) :
    deserialize_sockaddr b =
      (.error (.Message ("In reading SocketAddr ip low: " ++ e.fmt)), b2) := by
  unfold deserialize_sockaddr
  simp only [h1, h2]

theorem deserialize_sockaddr_port_err (b b1 b2 b3 : List (Fin 256)) (high low : Nat) (e : Error)
    (h1 : deserialize_u64 b = (.ok high, b1)) (h2 : deserialize_u64 b1 = (.ok low, b2))
    (h3 : deserialize_u16 b2 = (.error e, b3)) :
    deserialize_sockaddr b =
      (.error (.Message ("In reading SocketAddr port: " ++ e.fmt)), b3) := by
  unfold deserialize_sockaddr
  simp only [h1, h2, h3]

theorem deserialize_sockaddr_ok (b b1 b2 b3 : List (Fin 256)) (high low port : Nat)
    (h1 : deserialize_u64 b = (.ok high, b1)) (h2 : deserialize_u64 b1 = (.ok low, b2))
    (h3 : deserialize_u16 b2 = (.ok port, b3)) :
    deserialize_sockaddr b = (.ok ⟨high * 2 ^ 64 + low, port⟩, b3) := by
  unfold deserialize_sockaddr
  simp only [h1, h2, h3]

theorem suffix_extract_bytes (b : List (Fin 256)) (n : Nat) :
    (extract_bytes b n).2 <:+ b := by
  unfold extract_bytes
  split
  · exact List.suffix_refl b
  · exact List.drop_suffix n b

theorem suffix_u8 (b : List (Fin 256)) : (deserialize_u8 b).2 <:+ b := by
  rcases b with _ | ⟨b0, t⟩
  · exact List.suffix_refl _
  · exact List.suffix_cons b0 t

theorem suffix_u16 (b : List (Fin 256)) : (deserialize_u16 b).2 <:+ b := by
  rcases b with _ | ⟨b0, _ | ⟨b1, t⟩⟩
  · exact List.suffix_refl _
  · exact List.suffix_refl _
  · exact List.drop_suffix 2 (b0 :: b1 :: t)

theorem suffix_u32 (b : List (Fin 256)) : (deserialize_u32 b).2 <:+ b := by
  rcases b with _ | ⟨b0, _ | ⟨b1, _ | ⟨b2, _ | ⟨b3, t⟩⟩⟩⟩
  · exact List.suffix_refl _
  · exact List.suffix_refl _
  · exact List.suffix_refl _
  · exact List.suffix_refl _
  · exact List.drop_suffix 4 (b0 :: b1 :: b2 :: b3 :: t)

theorem suffix_u64 (b : List (Fin 256)) : (deserialize_u64 b).2 <:+ b := by
  rcases b with _ | ⟨b0, _ | ⟨b1, _ | ⟨b2, _ | ⟨b3, _ | ⟨b4, _ | ⟨b5, _ | ⟨b6, _ | ⟨b7, t⟩⟩⟩⟩⟩⟩⟩⟩
  · exact List.suffix_refl _
  · exact List.suffix_refl _
  · exact List.suffix_refl _
  · exact List.suffix_refl _
  · exact List.suffix_refl _
  · exact List.suffix_refl _
  · exact List.suffix_refl _
  · exact List.suffix_refl _
  · exact List.drop_suffix 8 (b0 :: b1 :: b2 :: b3 :: b4 :: b5 :: b6 :: b7 :: t)

theorem suffix_varuint (b : List (Fin 256)) : (deserialize_varuint b).2 <:+ b := by
  rcases b with _ | ⟨b0, rest⟩
  · exact List.suffix_refl _
  · have hcons : rest <:+ b0 :: rest := List.suffix_cons b0 rest
    unfold deserialize_varuint
    simp only [deserialize_u8]
    split
    · rcases h16 : deserialize_u16 rest with ⟨res, b2⟩
      have hs := suffix_u16 rest
      rw [h16] at hs
      rcases res with e | n
      · rcases e with s | ⟨t, exp, len⟩ | bad <;> exact hs.trans hcons
      · exact hs.trans hcons
    · rcases h32 : deserialize_u32 rest with ⟨res, b2⟩
      have hs := suffix_u32 rest
      rw [h32] at hs
      rcases res with e | n
      · rcases e with s | ⟨t, exp, len⟩ | bad <;> exact hs.trans hcons
      · exact hs.trans hcons
    · rcases h64 : deserialize_u64 rest with ⟨res, b2⟩
      have hs := suffix_u64 rest
      rw [h64] at hs
      rcases res with e | n
      · rcases e with s | ⟨t, exp, len⟩ | bad <;> exact hs.trans hcons
      · exact hs.trans hcons
    · exact hcons

theorem suffix_string (b : List (Fin 256)) : (deserialize_string b).2 <:+ b := by
  have hv := suffix_varuint b
  unfold deserialize_string
  rcases hvar : deserialize_varuint b with ⟨res, b1⟩
  rw [hvar] at hv
  rcases res with e | n
  · exact hv
  · simp only []
    split
    · exact hv
    · split
      · exact (List.drop_suffix n.value b1).trans hv
      · exact (List.drop_suffix n.value b1).trans hv

theorem suffix_vec_items {α : Type} (dec : List (Fin 256) → Except Error α × List (Fin 256))
    (hdec : ∀ c, (dec c).2 <:+ c) :
    ∀ (n : Nat) (b : List (Fin 256)), (deserialize_vec_items dec n b).2 <:+ b := by
  intro n
  induction n with
  | zero => intro b; exact List.suffix_refl b
  | succ n ih =>
    intro b
    have hd := hdec b
    simp only [deserialize_vec_items]
    rcases hdb : dec b with ⟨res, b1⟩
    rw [hdb] at hd
    rcases res with e | x
    · exact hd
    · have hi := ih b1
      simp only []
      rcases hib : deserialize_vec_items dec n b1 with ⟨ires, b2⟩
      rw [hib] at hi
      rcases ires with e | xs
      · exact hi.trans hd
      · exact hi.trans hd

theorem suffix_vec {α : Type} (dec : List (Fin 256) → Except Error α × List (Fin 256))
    (hdec : ∀ c, (dec c).2 <:+ c) (b : List (Fin 256)) :
    (deserialize_vec dec b).2 <:+ b := by
  have hv := suffix_varuint b
  unfold deserialize_vec
  rcases hvar : deserialize_varuint b with ⟨res, b1⟩
  rw [hvar] at hv
  rcases res with e | n
  · exact hv
  · exact (suffix_vec_items dec hdec n.value b1).trans hv

theorem suffix_hash (b : List (Fin 256)) : (deserialize_hash b).2 <:+ b := by
  have he := suffix_extract_bytes b 32
  unfold deserialize_hash
  rcases hx : extract_bytes b 32 with ⟨res, b1⟩
  rw [hx] at he
  rcases res with e | v
  · exact he
  · exact he

theorem suffix_sockaddr (b : List (Fin 256)) : (deserialize_sockaddr b).2 <:+ b := by
  have h1 := suffix_u64 b
  unfold deserialize_sockaddr
  rcases ha : deserialize_u64 b with ⟨res, b1⟩
  rw [ha] at h1
  rcases res with e | high
  · exact h1
  · have h2 := suffix_u64 b1
    simp only []
    rcases hb : deserialize_u64 b1 with ⟨res2, b2⟩
    rw [hb] at h2
    rcases res2 with e | low
    · exact h2.trans h1
    · have h3 := suffix_u16 b2
      simp only []
      rcases hc : deserialize_u16 b2 with ⟨res3, b3⟩
      rw [hc] at h3
      rcases res3 with e | port
      · exact (h3.trans h2).trans h1
      · exact (h3.trans h2).trans h1

theorem extract_bytes_err_state (b : List (Fin 256)) (n : Nat) (e : Error)
    (h : (extract_bytes b n).1 = .error e) : (extract_bytes b n).2 = b := by
  by_cases hc : n > b.length
  · simp [extract_bytes, hc]
  · exfalso
    simp [extract_bytes, hc] at h

theorem deserialize_u8_err_state (b : List (Fin 256)) (e : Error)
    (h : (deserialize_u8 b).1 = .error e) : (deserialize_u8 b).2 = b := by
  rcases b with _ | ⟨b0, t⟩
  · rfl
  · simp [deserialize_u8] at h

theorem deserialize_u16_err_state (b : List (Fin 256)) (e : Error)
    (h : (deserialize_u16 b).1 = .error e) : (deserialize_u16 b).2 = b := by
  rcases b with _ | ⟨b0, _ | ⟨b1, t⟩⟩ <;> first | rfl | simp [deserialize_u16] at h

theorem deserialize_u32_err_state (b : List (Fin 256)) (e : Error)
    (h : (deserialize_u32 b).1 = .error e) : (deserialize_u32 b).2 = b := by
  rcases b with _ | ⟨b0, _ | ⟨b1, _ | ⟨b2, _ | ⟨b3, t⟩⟩⟩⟩ <;>
    first | rfl | simp [deserialize_u32] at h

theorem deserialize_u64_err_state (b : List (Fin 256)) (e : Error)
    (h : (deserialize_u64 b).1 = .error e) : (deserialize_u64 b).2 = b := by
  rcases b with _ | ⟨b0, _ | ⟨b1, _ | ⟨b2, _ | ⟨b3, _ | ⟨b4, _ | ⟨b5, _ | ⟨b6, _ | ⟨b7, t⟩⟩⟩⟩⟩⟩⟩⟩ <;>
    first | rfl | simp [deserialize_u64] at h

theorem deserialize_varuint_short_first (b : List (Fin 256)) (h : b.length < 1) :
    deserialize_varuint b = (.error (.BufferTooShort "VarUint" 1 b.length), b) := by
  rcases b with _ | ⟨b0, t⟩
  · rfl
  · simp at h

/-- Claim C1: VarUint decode reads the first byte; if it is `0xFD`, `0xFE` or
`0xFF` it then reads a 2-, 4- or 8-byte big-endian unsigned integer
respectively, widened to 64 bits, as the value; otherwise the first byte
itself is the value. Decoding `{0xFD, 42, 43}` yields the VarUint 10795. -/
theorem C1_varuint_decode :
    (∀ (b0 : Fin 256) (rest : List (Fin 256)),
      b0.val ≠ 0xFD → b0.val ≠ 0xFE → b0.val ≠ 0xFF →
      deserialize_varuint (b0 :: rest) = (.ok ⟨b0.val⟩, rest)) ∧
    (∀ (b0 b1 b2 : Fin 256) (rest : List (Fin 256)), b0.val = 0xFD →
      deserialize_varuint (b0 :: b1 :: b2 :: rest) =
        (.ok ⟨b1.val * 2 ^ 8 + b2.val⟩, rest)) ∧
    (∀ (b0 b1 b2 b3 b4 : Fin 256) (rest : List (Fin 256)), b0.val = 0xFE →
      deserialize_varuint (b0 :: b1 :: b2 :: b3 :: b4 :: rest) =
        (.ok ⟨b1.val * 2 ^ 24 + b2.val * 2 ^ 16 + b3.val * 2 ^ 8 + b4.val⟩, rest)) ∧
    (∀ (b0 b1 b2 b3 b4 b5 b6 b7 b8 : Fin 256) (rest : List (Fin 256)), b0.val = 0xFF →
      deserialize_varuint (b0 :: b1 :: b2 :: b3 :: b4 :: b5 :: b6 :: b7 :: b8 :: rest) =
        (.ok ⟨b1.val * 2 ^ 56 + b2.val * 2 ^ 48 + b3.val * 2 ^ 40 + b4.val * 2 ^ 32 +
              b5.val * 2 ^ 24 + b6.val * 2 ^ 16 + b7.val * 2 ^ 8 + b8.val⟩, rest)) ∧
    deserialize_varuint [0xFD, 42, 43] = (.ok ⟨10795⟩, []) := by
  refine ⟨deserialize_varuint_small, ?_, ?_, ?_, rfl⟩
  · intro b0 b1 b2 rest hb
    exact deserialize_varuint_fd_ok b0 hb _ _ _ rfl
  · intro b0 b1 b2 b3 b4 rest hb
    exact deserialize_varuint_fe_ok b0 hb _ _ _ rfl
  · intro b0 b1 b2 b3 b4 b5 b6 b7 b8 rest hb
    exact deserialize_varuint_ff_ok b0 hb _ _ _ rfl

/-- Witness for C1 at concrete inputs of each branch. -/
theorem C1_varuint_decode_witness :
    deserialize_varuint [42] = (.ok ⟨42⟩, []) ∧
    deserialize_varuint [0xFD, 0, 1] = (.ok ⟨1⟩, []) ∧
    deserialize_varuint [0xFE, 0, 0, 0, 2] = (.ok ⟨2⟩, []) ∧
    deserialize_varuint [0xFF, 0, 0, 0, 0, 0, 0, 0, 3] = (.ok ⟨3⟩, []) :=
  ⟨C1_varuint_decode.1 42 [] (by decide) (by decide) (by decide),
   C1_varuint_decode.2.1 0xFD 0 1 [] (by decide),
   C1_varuint_decode.2.2.1 0xFE 0 0 0 2 [] (by decide),
   C1_varuint_decode.2.2.2.1 0xFF 0 0 0 0 0 0 0 3 [] (by decide)⟩

/-- Claim C2 counterexample: decoding a `SocketAddr` from an empty buffer
fails while reading the ip-high field, but the error handed to the caller is
a contextual `Message` embedding the formatted text of the inner primitive
error (which still names `u64`), not a `BufferTooShort` renamed to the outer type. -/
theorem C2_counterexample :
    deserialize_sockaddr [] =
      (.error (.Message
        "In reading SocketAddr ip high: Not enough bytes in buffer reading u64, expected 8 got 0"),
        []) ∧
    deserialize_sockaddr [] ≠ (.error (.BufferTooShort "SocketAddr" 8 0), []) := by
  constructor
  · rfl
  · decide

/-- Claim C2 (amended): only VarUint rewrites an inner short-buffer failure
into a `BufferTooShort` naming the outer type while preserving the
expected/actual counts; for the three address fields (ip high, ip low, port)
the inner error is instead wrapped in a contextual `Message` naming the
field and embedding the formatted text of the inner error. -/
theorem C2_error_context :
    (∀ (b : List (Fin 256)), b.length < 1 →
      deserialize_varuint b = (.error (.BufferTooShort "VarUint" 1 b.length), b)) ∧
    (∀ (b0 : Fin 256) (rest b2 : List (Fin 256)) (t : String) (exp len : Nat),
      b0.val = 0xFD → deserialize_u16 rest = (.error (.BufferTooShort t exp len), b2) →
      deserialize_varuint (b0 :: rest) = (.error (.BufferTooShort "VarUint" exp len), b2)) ∧
    (∀ (b0 : Fin 256) (rest b2 : List (Fin 256)) (t : String) (exp len : Nat),
      b0.val = 0xFE → deserialize_u32 rest = (.error (.BufferTooShort t exp len), b2) →
      deserialize_varuint (b0 :: rest) = (.error (.BufferTooShort "VarUint" exp len), b2)) ∧
    (∀ (b0 : Fin 256) (rest b2 : List (Fin 256)) (t : String) (exp len : Nat),
      b0.val = 0xFF → deserialize_u64 rest = (.error (.BufferTooShort t exp len), b2) →
      deserialize_varuint (b0 :: rest) = (.error (.BufferTooShort "VarUint" exp len), b2)) ∧
    (∀ (b b1 : List (Fin 256)) (e : Error), deserialize_u64 b = (.error e, b1) →
      deserialize_sockaddr b =
        (.error (.Message ("In reading SocketAddr ip high: " ++ e.fmt)), b1)) ∧
    (∀ (b b1 b2 : List (Fin 256)) (high : Nat) (e : Error),
      deserialize_u64 b = (.ok high, b1) → deserialize_u64 b1 = (.error e, b2) →
      deserialize_sockaddr b =
        (.error (.Message ("In reading SocketAddr ip low: " ++ e.fmt)), b2)) ∧
    (∀ (b b1 b2 b3 : List (Fin 256)) (high low : Nat) (e : Error),
      deserialize_u64 b = (.ok high, b1) → deserialize_u64 b1 = (.ok low, b2) →
      deserialize_u16 b2 = (.error e, b3) →
      deserialize_sockaddr b =
        (.error (.Message ("In reading SocketAddr port: " ++ e.fmt)), b3)) :=
  ⟨deserialize_varuint_short_first,
   fun b0 rest b2 t exp len hb h => deserialize_varuint_fd_err b0 hb rest b2 t exp len h,
   fun b0 rest b2 t exp len hb h => deserialize_varuint_fe_err b0 hb rest b2 t exp len h,
   fun b0 rest b2 t exp len hb h => deserialize_varuint_ff_err b0 hb rest b2 t exp len h,
   deserialize_sockaddr_high_err,
   deserialize_sockaddr_low_err,
   deserialize_sockaddr_port_err⟩

/-- Witness for C2 (amended) at concrete inputs for each propagation layer. -/
theorem C2_error_context_witness :
    deserialize_varuint [] = (.error (.BufferTooShort "VarUint" 1 0), []) ∧
    deserialize_varuint [0xFD, 9] = (.error (.BufferTooShort "VarUint" 2 1), [9]) ∧
    deserialize_varuint [0xFE, 9] = (.error (.BufferTooShort "VarUint" 4 1), [9]) ∧
    deserialize_varuint [0xFF, 9] = (.error (.BufferTooShort "VarUint" 8 1), [9]) ∧
    deserialize_sockaddr [] =
      (.error (.Message ("In reading SocketAddr ip high: " ++
        (Error.BufferTooShort "u64" 8 0).fmt)), []) ∧
    deserialize_sockaddr [1, 1, 1, 1, 1, 1, 1, 1] =
      (.error (.Message ("In reading SocketAddr ip low: " ++
        (Error.BufferTooShort "u64" 8 0).fmt)), []) ∧
    deserialize_sockaddr [1, 1, 1, 1, 1, 1, 1, 1, 2, 2, 2, 2, 2, 2, 2, 2] =
      (.error (.Message ("In reading SocketAddr port: " ++
        (Error.BufferTooShort "u16" 2 0).fmt)), []) :=
  ⟨C2_error_context.1 [] (by decide),
   C2_error_context.2.1 0xFD [9] [9] "u16" 2 1 (by decide) rfl,
   C2_error_context.2.2.1 0xFE [9] [9] "u32" 4 1 (by decide) rfl,
   C2_error_context.2.2.2.1 0xFF [9] [9] "u64" 8 1 (by decide) rfl,
   C2_error_context.2.2.2.2.1 [] [] (.BufferTooShort "u64" 8 0) rfl,
   C2_error_context.2.2.2.2.2.1 [1, 1, 1, 1, 1, 1, 1, 1] [] []
     (beVal [1, 1, 1, 1, 1, 1, 1, 1]) (.BufferTooShort "u64" 8 0) (by decide) rfl,
   C2_error_context.2.2.2.2.2.2 [1, 1, 1, 1, 1, 1, 1, 1, 2, 2, 2, 2, 2, 2, 2, 2]
     [2, 2, 2, 2, 2, 2, 2, 2] [] [] (beVal [1, 1, 1, 1, 1, 1, 1, 1])
     (beVal [2, 2, 2, 2, 2, 2, 2, 2]) (.BufferTooShort "u16" 2 0) (by decide) (by decide) rfl⟩

/-- Claim C3: for every supported value (u8, u16, u32, u64, VarUint, UTF-8
string, 32-byte hash, address, and sequences of a supported type), decoding
the bytes produced by encoding the value yields the value back (stated with
an arbitrary trailing buffer, which the round trip leaves untouched). The
encoders are modelled from the spec, `serializer.rs` being absent from the
sources. -/
theorem C3_roundtrip :
    (∀ n : Nat, n < 2 ^ 8 → ∀ rest : List (Fin 256),
      deserialize_u8 (serialize_u8 n ++ rest) = (.ok n, rest)) ∧
    (∀ n : Nat, n < 2 ^ 16 → ∀ rest : List (Fin 256),
      deserialize_u16 (serialize_u16 n ++ rest) = (.ok n, rest)) ∧
    (∀ n : Nat, n < 2 ^ 32 → ∀ rest : List (Fin 256),
      deserialize_u32 (serialize_u32 n ++ rest) = (.ok n, rest)) ∧
    (∀ n : Nat, n < 2 ^ 64 → ∀ rest : List (Fin 256),
      deserialize_u64 (serialize_u64 n ++ rest) = (.ok n, rest)) ∧
    (∀ v : VarUint, v.value < 2 ^ 64 → ∀ rest : List (Fin 256),
      deserialize_varuint (serialize_varuint v ++ rest) = (.ok v, rest)) ∧
    (∀ s : RustString, utf8Valid s.bytes → s.bytes.length < 2 ^ 64 →
      ∀ rest : List (Fin 256),
      deserialize_string (serialize_string s ++ rest) = (.ok s, rest)) ∧
    (∀ h : List (Fin 256), h.length = 32 → ∀ rest : List (Fin 256),
      deserialize_hash (serialize_hash h ++ rest) = (.ok h, rest)) ∧
    (∀ a : SockAddr, a.ip < 2 ^ 128 → a.port < 2 ^ 16 → ∀ rest : List (Fin 256),
      deserialize_sockaddr (serialize_sockaddr a ++ rest) = (.ok a, rest)) ∧
    (∀ (α : Type) (enc : α → List (Fin 256))
      (dec : List (Fin 256) → Except Error α × List (Fin 256)) (xs : List α),
      xs.length < 2 ^ 64 → (∀ x ∈ xs, ∀ r, dec (enc x ++ r) = (.ok x, r)) →
      ∀ rest : List (Fin 256),
      deserialize_vec dec (serialize_vec enc xs ++ rest) = (.ok xs, rest)) :=
  ⟨roundtrip_u8, roundtrip_u16, roundtrip_u32, roundtrip_u64, roundtrip_varuint,
   roundtrip_string,
   fun h hl rest => roundtrip_hash h hl rest,
   fun a hip hport rest => roundtrip_sockaddr a hip hport rest,
   fun _α enc dec xs hlen hrt rest => roundtrip_vec enc dec xs hlen hrt rest⟩

/-- Witness for C3: one concrete round trip per supported type. -/
theorem C3_roundtrip_witness :
    deserialize_u8 (serialize_u8 125 ++ []) = (.ok 125, []) ∧
    deserialize_u16 (serialize_u16 2575 ++ []) = (.ok 2575, []) ∧
    deserialize_u32 (serialize_u32 707472429 ++ []) = (.ok 707472429, []) ∧
    deserialize_u64 (serialize_u64 3038570946151526449 ++ []) =
      (.ok 3038570946151526449, []) ∧
    deserialize_varuint (serialize_varuint ⟨10795⟩ ++ []) = (.ok ⟨10795⟩, []) ∧
    deserialize_string (serialize_string ⟨[97, 98, 99]⟩ ++ []) =
      (.ok ⟨[97, 98, 99]⟩, []) ∧
    deserialize_hash (serialize_hash (List.replicate 32 0) ++ []) =
      (.ok (List.replicate 32 0), []) ∧
    deserialize_sockaddr (serialize_sockaddr ⟨77, 8080⟩ ++ []) = (.ok ⟨77, 8080⟩, []) ∧
    deserialize_vec deserialize_u8 (serialize_vec serialize_u8 [42, 43] ++ []) =
      (.ok [42, 43], []) :=
  ⟨C3_roundtrip.1 125 (by norm_num) [],
   C3_roundtrip.2.1 2575 (by norm_num) [],
   C3_roundtrip.2.2.1 707472429 (by norm_num) [],
   C3_roundtrip.2.2.2.1 3038570946151526449 (by norm_num) [],
   C3_roundtrip.2.2.2.2.1 ⟨10795⟩ (by norm_num) [],
   C3_roundtrip.2.2.2.2.2.1 ⟨[97, 98, 99]⟩ (by decide) (by decide) [],
   C3_roundtrip.2.2.2.2.2.2.1 (List.replicate 32 0) (by decide) [],
   C3_roundtrip.2.2.2.2.2.2.2.1 ⟨77, 8080⟩ (by norm_num) (by norm_num) [],
   C3_roundtrip.2.2.2.2.2.2.2.2 Nat serialize_u8 deserialize_u8 [42, 43] (by decide)
     (fun x hx r => C3_roundtrip.1 x (by simp at hx; rcases hx with rfl | rfl <;> norm_num) r) []⟩

/-- Claim C4: decoding any fixed-width unsigned integer (u8, u16, u32, u64)
or a VarUint from a buffer holding fewer bytes than required fails with a
short-buffer error reporting the expected count and the bytes actually
available, and produces no value. -/
theorem C4_short_buffer_determinism :
    (∀ b : List (Fin 256), b.length < 1 →
      deserialize_u8 b = (.error (.BufferTooShort "u8" 1 b.length), b)) ∧
    (∀ b : List (Fin 256), b.length < 2 →
      deserialize_u16 b = (.error (.BufferTooShort "u16" 2 b.length), b)) ∧
    (∀ b : List (Fin 256), b.length < 4 →
      deserialize_u32 b = (.error (.BufferTooShort "u32" 4 b.length), b)) ∧
    (∀ b : List (Fin 256), b.length < 8 →
      deserialize_u64 b = (.error (.BufferTooShort "u64" 8 b.length), b)) ∧
    (∀ b : List (Fin 256), b.length < 1 →
      deserialize_varuint b = (.error (.BufferTooShort "VarUint" 1 b.length), b)) ∧
    (∀ (b0 : Fin 256) (rest : List (Fin 256)), b0.val = 0xFD → rest.length < 2 →
      deserialize_varuint (b0 :: rest) =
        (.error (.BufferTooShort "VarUint" 2 rest.length), rest)) ∧
    (∀ (b0 : Fin 256) (rest : List (Fin 256)), b0.val = 0xFE → rest.length < 4 →
      deserialize_varuint (b0 :: rest) =
        (.error (.BufferTooShort "VarUint" 4 rest.length), rest)) ∧
    (∀ (b0 : Fin 256) (rest : List (Fin 256)), b0.val = 0xFF → rest.length < 8 →
      deserialize_varuint (b0 :: rest) =
        (.error (.BufferTooShort "VarUint" 8 rest.length), rest)) :=
  ⟨deserialize_u8_short, deserialize_u16_short, deserialize_u32_short,
   deserialize_u64_short, deserialize_varuint_short_first,
   fun b0 rest hb hr =>
     deserialize_varuint_fd_err b0 hb rest rest "u16" 2 rest.length
       (deserialize_u16_short rest hr),
   fun b0 rest hb hr =>
     deserialize_varuint_fe_err b0 hb rest rest "u32" 4 rest.length
       (deserialize_u32_short rest hr),
   fun b0 rest hb hr =>
     deserialize_varuint_ff_err b0 hb rest rest "u64" 8 rest.length
       (deserialize_u64_short rest hr)⟩

/-- Witness for C4: each short-buffer case at a concrete input. -/
theorem C4_short_buffer_determinism_witness :
    deserialize_u8 [] = (.error (.BufferTooShort "u8" 1 0), []) ∧
    deserialize_u16 [7] = (.error (.BufferTooShort "u16" 2 1), [7]) ∧
    deserialize_u32 [7, 7] = (.error (.BufferTooShort "u32" 4 2), [7, 7]) ∧
    deserialize_u64 [7] = (.error (.BufferTooShort "u64" 8 1), [7]) ∧
    deserialize_varuint [] = (.error (.BufferTooShort "VarUint" 1 0), []) ∧
    deserialize_varuint [0xFD, 7] = (.error (.BufferTooShort "VarUint" 2 1), [7]) ∧
    deserialize_varuint [0xFE, 7] = (.error (.BufferTooShort "VarUint" 4 1), [7]) ∧
    deserialize_varuint [0xFF, 7] = (.error (.BufferTooShort "VarUint" 8 1), [7]) :=
  ⟨C4_short_buffer_determinism.1 [] (by decide),
   C4_short_buffer_determinism.2.1 [7] (by decide),
   C4_short_buffer_determinism.2.2.1 [7, 7] (by decide),
   C4_short_buffer_determinism.2.2.2.1 [7] (by decide),
   C4_short_buffer_determinism.2.2.2.2.1 [] (by decide),
   C4_short_buffer_determinism.2.2.2.2.2.1 0xFD [7] (by decide) (by decide),
   C4_short_buffer_determinism.2.2.2.2.2.2.1 0xFE [7] (by decide) (by decide),
   C4_short_buffer_determinism.2.2.2.2.2.2.2 0xFF [7] (by decide) (by decide)⟩

/-- Claim C5: sequence decode reads a VarUint length `n`, then decodes
exactly `n` values of the element type in order (any successful result has
exactly `n` elements, produced by chaining the element decoder); the first
failing element aborts the whole decode with the inner error wrapped in a
contextual `Message`. Decoding `{2, 2, 42, 43, 1, 44}` as a sequence of byte
sequences yields `[[42, 43], [44]]`. -/
theorem C5_sequence_decode :
    (∀ (α : Type) (dec : List (Fin 256) → Except Error α × List (Fin 256))
      (b b1 : List (Fin 256)) (n : VarUint),
      deserialize_varuint b = (.ok n, b1) →
      deserialize_vec dec b = deserialize_vec_items dec n.value b1) ∧
    (∀ (α : Type) (dec : List (Fin 256) → Except Error α × List (Fin 256))
      (n : Nat) (b b2 : List (Fin 256)) (xs : List α),
      deserialize_vec_items dec n b = (.ok xs, b2) → xs.length = n) ∧
    (∀ (α : Type) (dec : List (Fin 256) → Except Error α × List (Fin 256))
      (n : Nat) (b b1 b2 : List (Fin 256)) (x : α) (xs : List α),
      dec b = (.ok x, b1) → deserialize_vec_items dec n b1 = (.ok xs, b2) →
      deserialize_vec_items dec (n + 1) b = (.ok (x :: xs), b2)) ∧
    (∀ (α : Type) (dec : List (Fin 256) → Except Error α × List (Fin 256))
      (n : Nat) (b b1 : List (Fin 256)) (e : Error),
      dec b = (.error e, b1) →
      deserialize_vec_items dec (n + 1) b =
        (.error (.Message ("Error in reading vec item: " ++ e.fmt)), b1)) ∧
    deserialize_vec (deserialize_vec deserialize_u8) [2, 2, 42, 43, 1, 44] =
      (.ok [[42, 43], [44]], []) := by
  refine ⟨?_, ?_, ?_, ?_, rfl⟩
  · intro α dec b b1 n h
    exact deserialize_vec_of_varuint dec b b1 n h
  · intro α dec n b b2 xs h
    exact deserialize_vec_items_length dec n b b2 xs h
  · intro α dec n b b1 b2 x xs h1 h2
    simp only [deserialize_vec_items, h1, h2]
  · intro α dec n b b1 e h
    exact deserialize_vec_items_err dec b b1 e n h

/-- Witness for C5 at concrete inputs for each conjunct. -/
theorem C5_sequence_decode_witness :
    deserialize_vec deserialize_u8 [1, 9] =
      deserialize_vec_items deserialize_u8 1 [9] ∧
    ([9] : List Nat).length = 1 ∧
    deserialize_vec_items deserialize_u8 1 [9] = (.ok [9], []) ∧
    deserialize_vec_items deserialize_u8 1 [] =
      (.error (.Message ("Error in reading vec item: " ++
        (Error.BufferTooShort "u8" 1 0).fmt)), []) :=
  ⟨C5_sequence_decode.1 Nat deserialize_u8 [1, 9] [9] ⟨1⟩ rfl,
   C5_sequence_decode.2.1 Nat deserialize_u8 1 [9] [] [9] rfl,
   C5_sequence_decode.2.2.1 Nat deserialize_u8 0 [9] [] [] 9 [] rfl rfl,
   C5_sequence_decode.2.2.2.1 Nat deserialize_u8 0 [] [] (.BufferTooShort "u8" 1 0) rfl⟩

/-- Claim C6: when string decode has read a VarUint length `n` and at least
`n` bytes remain, invalid UTF-8 in those `n` bytes fails with the
invalid-encoding kind (carrying the offending bytes), not a short-buffer
error; when fewer than `n` bytes remain it fails with a short-buffer error
reporting `n` against the bytes actually available. -/
theorem C6_string_error_kinds :
    (∀ (b b1 : List (Fin 256)) (n : VarUint),
      deserialize_varuint b = (.ok n, b1) → n.value ≤ b1.length →
      utf8Valid (b1.take n.value) = false →
      deserialize_string b =
        (.error (.InvalidString (b1.take n.value)), b1.drop n.value)) ∧
    (∀ (b b1 : List (Fin 256)) (n : VarUint),
      deserialize_varuint b = (.ok n, b1) → b1.length < n.value →
      deserialize_string b =
        (.error (.BufferTooShort "String" n.value b1.length), b1)) := by
  constructor
  · intro b b1 n h hle hval
    exact deserialize_string_invalid b b1 n h (by omega) (by simp [hval])
  · intro b b1 n h hlt
    exact deserialize_string_short b b1 n h hlt

/-- Witness for C6: an invalid-UTF-8 input and a short input. -/
theorem C6_string_error_kinds_witness :
    deserialize_string [1, 0xFF] = (.error (.InvalidString [0xFF]), []) ∧
    deserialize_string [5, 97] = (.error (.BufferTooShort "String" 5 1), [97]) :=
  ⟨C6_string_error_kinds.1 [1, 0xFF] [0xFF] ⟨1⟩ rfl (by decide) (by decide),
   C6_string_error_kinds.2 [5, 97] [97] ⟨5⟩ rfl (by decide)⟩

/-- Claim C7: address decode reads a big-endian 64-bit high word, a
big-endian 64-bit low word, combines them as `high * 2 ^ 64 + low` into the
128-bit IPv6 address, then reads a big-endian 16-bit port, and returns the
socket address built from both; each of the three reads wraps its own
failure with the field being read (ip high, ip low, port). -/
theorem C7_address_decode :
    (∀ (hw lw : List (Fin 256)) (p0 p1 : Fin 256) (rest : List (Fin 256)),
      hw.length = 8 → lw.length = 8 →
      deserialize_sockaddr (hw ++ lw ++ p0 :: p1 :: rest) =
        (.ok ⟨beVal hw * 2 ^ 64 + beVal lw, p0.val * 2 ^ 8 + p1.val⟩, rest)) ∧
    (∀ (b b1 : List (Fin 256)) (e : Error), deserialize_u64 b = (.error e, b1) →
      deserialize_sockaddr b =
        (.error (.Message ("In reading SocketAddr ip high: " ++ e.fmt)), b1)) ∧
    (∀ (b b1 b2 : List (Fin 256)) (high : Nat) (e : Error),
      deserialize_u64 b = (.ok high, b1) → deserialize_u64 b1 = (.error e, b2) →
      deserialize_sockaddr b =
        (.error (.Message ("In reading SocketAddr ip low: " ++ e.fmt)), b2)) ∧
    (∀ (b b1 b2 b3 : List (Fin 256)) (high low : Nat) (e : Error),
      deserialize_u64 b = (.ok high, b1) → deserialize_u64 b1 = (.ok low, b2) →
      deserialize_u16 b2 = (.error e, b3) →
      deserialize_sockaddr b =
        (.error (.Message ("In reading SocketAddr port: " ++ e.fmt)), b3)) := by
  refine ⟨?_, deserialize_sockaddr_high_err, deserialize_sockaddr_low_err,
    deserialize_sockaddr_port_err⟩
  intro hw lw p0 p1 rest hhw hlw
  rw [List.append_assoc]
  exact deserialize_sockaddr_ok _ _ _ _ _ _ _
    (deserialize_u64_append hw _ hhw)
    (deserialize_u64_append lw _ hlw)
    rfl

/-- Witness for C7 at concrete inputs for each conjunct. -/
theorem C7_address_decode_witness :
    deserialize_sockaddr
        ([0, 0, 0, 0, 0, 0, 0, 1] ++ [0, 0, 0, 0, 0, 0, 0, 2] ++ 31 :: 144 :: []) =
      (.ok ⟨beVal [0, 0, 0, 0, 0, 0, 0, 1] * 2 ^ 64 + beVal [0, 0, 0, 0, 0, 0, 0, 2],
        (31 : Fin 256).val * 2 ^ 8 + (144 : Fin 256).val⟩, []) ∧
    deserialize_sockaddr [] =
      (.error (.Message ("In reading SocketAddr ip high: " ++
        (Error.BufferTooShort "u64" 8 0).fmt)), []) ∧
    deserialize_sockaddr [0, 0, 0, 0, 0, 0, 0, 1] =
      (.error (.Message ("In reading SocketAddr ip low: " ++
        (Error.BufferTooShort "u64" 8 0).fmt)), []) ∧
    deserialize_sockaddr [0, 0, 0, 0, 0, 0, 0, 1, 0, 0, 0, 0, 0, 0, 0, 2] =
      (.error (.Message ("In reading SocketAddr port: " ++
        (Error.BufferTooShort "u16" 2 0).fmt)), []) :=
  ⟨C7_address_decode.1 [0, 0, 0, 0, 0, 0, 0, 1] [0, 0, 0, 0, 0, 0, 0, 2] 31 144 []
     (by decide) (by decide),
   C7_address_decode.2.1 [] [] (.BufferTooShort "u64" 8 0) rfl,
   C7_address_decode.2.2.1 [0, 0, 0, 0, 0, 0, 0, 1] [] [] 1
     (.BufferTooShort "u64" 8 0) (by decide) rfl,
   C7_address_decode.2.2.2 [0, 0, 0, 0, 0, 0, 0, 1, 0, 0, 0, 0, 0, 0, 0, 2]
     [0, 0, 0, 0, 0, 0, 0, 2] [] [] 1 2 (.BufferTooShort "u16" 2 0)
     (by decide) (by decide) rfl⟩

/-- Claim C8: with enough bytes available, the fixed-width reads remove
exactly 1, 2, 4 and 8 bytes from the front and return their big-endian
value; decoding `{125}` as u8 yields 125 and `{10, 15}` as u16 yields 2575. -/
theorem C8_fixed_width_reads :
    (∀ (b0 : Fin 256) (rest : List (Fin 256)),
      deserialize_u8 (b0 :: rest) = (.ok b0.val, rest)) ∧
    (∀ (b0 b1 : Fin 256) (rest : List (Fin 256)),
      deserialize_u16 (b0 :: b1 :: rest) = (.ok (b0.val * 2 ^ 8 + b1.val), rest)) ∧
    (∀ (b0 b1 b2 b3 : Fin 256) (rest : List (Fin 256)),
      deserialize_u32 (b0 :: b1 :: b2 :: b3 :: rest) =
        (.ok (b0.val * 2 ^ 24 + b1.val * 2 ^ 16 + b2.val * 2 ^ 8 + b3.val), rest)) ∧
    (∀ (b0 b1 b2 b3 b4 b5 b6 b7 : Fin 256) (rest : List (Fin 256)),
      deserialize_u64 (b0 :: b1 :: b2 :: b3 :: b4 :: b5 :: b6 :: b7 :: rest) =
        (.ok (b0.val * 2 ^ 56 + b1.val * 2 ^ 48 + b2.val * 2 ^ 40 + b3.val * 2 ^ 32 +
              b4.val * 2 ^ 24 + b5.val * 2 ^ 16 + b6.val * 2 ^ 8 + b7.val), rest)) ∧
    deserialize_u8 [125] = (.ok 125, []) ∧
    deserialize_u16 [10, 15] = (.ok 2575, []) :=
  ⟨fun _ _ => rfl, fun _ _ _ => rfl, fun _ _ _ _ _ => rfl,
   fun _ _ _ _ _ _ _ _ _ => rfl, rfl, rfl⟩

/-- Claim C9: every read operation — `extract_bytes`, the fixed-width
integers, VarUint, string, sequence (for any element decoder that itself
only consumes from the front), hash and address — only removes bytes from
the front: whether it succeeds or fails, the remaining buffer is a
contiguous suffix of the buffer before the call. -/
theorem C9_front_consumption :
    (∀ (b : List (Fin 256)) (n : Nat), (extract_bytes b n).2 <:+ b) ∧
    (∀ b : List (Fin 256), (deserialize_u8 b).2 <:+ b) ∧
    (∀ b : List (Fin 256), (deserialize_u16 b).2 <:+ b) ∧
    (∀ b : List (Fin 256), (deserialize_u32 b).2 <:+ b) ∧
    (∀ b : List (Fin 256), (deserialize_u64 b).2 <:+ b) ∧
    (∀ b : List (Fin 256), (deserialize_varuint b).2 <:+ b) ∧
    (∀ b : List (Fin 256), (deserialize_string b).2 <:+ b) ∧
    (∀ (α : Type) (dec : List (Fin 256) → Except Error α × List (Fin 256)),
      (∀ c, (dec c).2 <:+ c) → ∀ b, (deserialize_vec dec b).2 <:+ b) ∧
    (∀ b : List (Fin 256), (deserialize_hash b).2 <:+ b) ∧
    (∀ b : List (Fin 256), (deserialize_sockaddr b).2 <:+ b) :=
  ⟨suffix_extract_bytes, suffix_u8, suffix_u16, suffix_u32, suffix_u64,
   suffix_varuint, suffix_string,
   fun _α dec hdec b => suffix_vec dec hdec b,
   suffix_hash, suffix_sockaddr⟩

/-- Witness for C9: the sequence conjunct at a concrete decoder and input. -/
theorem C9_front_consumption_witness :
    (deserialize_vec deserialize_u8 [2, 42, 43]).2 <:+ [2, 42, 43] :=
  C9_front_consumption.2.2.2.2.2.2.2.1 Nat deserialize_u8 suffix_u8 [2, 42, 43]

/-- Claim C10: `extract_bytes` and the fixed-width reads check the available
count before consuming anything, so a short-buffer failure leaves the buffer
exactly as it was; VarUint, string, sequence and address decodes, by
contrast, can fail with the buffer already partially consumed (shown at
concrete inputs). -/
theorem C10_primitive_failure_state :
    (∀ (b : List (Fin 256)) (n : Nat) (e : Error),
      (extract_bytes b n).1 = .error e → (extract_bytes b n).2 = b) ∧
    (∀ (b : List (Fin 256)) (e : Error),
      (deserialize_u8 b).1 = .error e → (deserialize_u8 b).2 = b) ∧
    (∀ (b : List (Fin 256)) (e : Error),
      (deserialize_u16 b).1 = .error e → (deserialize_u16 b).2 = b) ∧
    (∀ (b : List (Fin 256)) (e : Error),
      (deserialize_u32 b).1 = .error e → (deserialize_u32 b).2 = b) ∧
    (∀ (b : List (Fin 256)) (e : Error),
      (deserialize_u64 b).1 = .error e → (deserialize_u64 b).2 = b) ∧
    ((deserialize_varuint [0xFD, 42]).1 =
        .error (.BufferTooShort "VarUint" 2 1) ∧
      (deserialize_varuint [0xFD, 42]).2 = [42]) ∧
    ((deserialize_string [3, 97]).1 = .error (.BufferTooShort "String" 3 1) ∧
      (deserialize_string [3, 97]).2 = [97]) ∧
    ((deserialize_vec deserialize_u8 [2, 42]).1 =
        .error (.Message ("Error in reading vec item: " ++
          (Error.BufferTooShort "u8" 1 0).fmt)) ∧
      (deserialize_vec deserialize_u8 [2, 42]).2 = []) ∧
    ((deserialize_sockaddr [0, 0, 0, 0, 0, 0, 0, 5, 9]).1 =
        .error (.Message ("In reading SocketAddr ip low: " ++
          (Error.BufferTooShort "u64" 8 1).fmt)) ∧
      (deserialize_sockaddr [0, 0, 0, 0, 0, 0, 0, 5, 9]).2 = [9]) :=
  ⟨extract_bytes_err_state, deserialize_u8_err_state, deserialize_u16_err_state,
   deserialize_u32_err_state, deserialize_u64_err_state,
   ⟨rfl, rfl⟩, ⟨rfl, rfl⟩, ⟨rfl, rfl⟩, ⟨rfl, rfl⟩⟩

/-- Witness for C10: the unchanged-buffer conjuncts at concrete failing
inputs. -/
theorem C10_primitive_failure_state_witness :
    (extract_bytes [7] 3).2 = [7] ∧
    (deserialize_u8 []).2 = [] ∧
    (deserialize_u16 [7]).2 = [7] ∧
    (deserialize_u32 [7]).2 = [7] ∧
    (deserialize_u64 [7]).2 = [7] :=
  ⟨C10_primitive_failure_state.1 [7] 3 (.BufferTooShort "bytes" 3 1) rfl,
   C10_primitive_failure_state.2.1 [] (.BufferTooShort "u8" 1 0) rfl,
   C10_primitive_failure_state.2.2.1 [7] (.BufferTooShort "u16" 2 1) rfl,
   C10_primitive_failure_state.2.2.2.1 [7] (.BufferTooShort "u32" 4 1) rfl,
   C10_primitive_failure_state.2.2.2.2.1 [7] (.BufferTooShort "u64" 8 1) rfl⟩
